import Mathlib

/-!
Verification of the biomarker-to-parameter derivation engine of the
blood-based calculator (`src/calculations.py`, with the biomarker catalog
from `src/biomarkers_data.py`).

The engine is a pure numeric transformation.  We embed it shallowly over
exact rationals (`ℚ`): every Python float literal becomes the rational with
the same decimal notation.  All properties checked here (orderings, clamp
bounds, exact hits of clamp bounds, branch selection against the 0.67/0.33
thresholds) are decided identically by IEEE doubles and by exact rationals
at the literals involved, so the rational model is faithful for them.
-/

/-- The 47 recognized biomarker keys (`ALL_BIOMARKERS` in
`biomarkers_data.py`: tumor 6, immune 12, resistance 16, metabolic 8,
organ 5). -/
inductive BiomarkerKey where
  | ca153 | ca2729 | cea | tk1 | ctdna | esr1_protein
  | cd8 | cd4 | nk | ifn_gamma | il10 | tnf_alpha
  | tgf_beta | pdl1_ctc | hla_dr | ctc | ang2 | lymphocytes
  | esr1_mutations | pgr | brca | pik3ca | tp53 | her2_mutations
  | her2_circ | mdr1 | cyp2d6 | survivin | hsp | mir200
  | exosomes | vegf | mrp1 | ki67
  | glucose | lactate | ldh | albumin | beta_hydroxybutyrate
  | blood_ph | folate | vitamin_d
  | creatinine | bun | alt | ast | bilirubin
  deriving DecidableEq, Fintype

/-- Iteration order of `ALL_BIOMARKERS` (dict insertion order). -/
def ALL_BIOMARKERS : List BiomarkerKey :=
  [.ca153, .ca2729, .cea, .tk1, .ctdna, .esr1_protein,
   .cd8, .cd4, .nk, .ifn_gamma, .il10, .tnf_alpha,
   .tgf_beta, .pdl1_ctc, .hla_dr, .ctc, .ang2, .lymphocytes,
   .esr1_mutations, .pgr, .brca, .pik3ca, .tp53, .her2_mutations,
   .her2_circ, .mdr1, .cyp2d6, .survivin, .hsp, .mir200,
   .exosomes, .vegf, .mrp1, .ki67,
   .glucose, .lactate, .ldh, .albumin, .beta_hydroxybutyrate,
   .blood_ph, .folate, .vitamin_d,
   .creatinine, .bun, .alt, .ast, .bilirubin]

/-- Embedding of `REFERENCE_VALUES_FOR_IMPUTATION` from `calculations.py`.  The Python
dict contains an entry for each of the 47 keys of `ALL_BIOMARKERS`, so the
`.get(k, 0.0)` fallback in `get_biomarkers_for_calculation` never fires and
the table is a total function. -/
def REFERENCE_VALUES_FOR_IMPUTATION : BiomarkerKey → ℚ
  | .ca153 => 15.65 | .ca2729 => 19.0 | .cea => 1.5 | .tk1 => 1.0
  | .ctdna => 0.25 | .esr1_protein => 3.0
  | .cd8 => 700.0 | .cd4 => 1050.0 | .nk => 345.0 | .ifn_gamma => 2.0
  | .il10 => 2.5 | .tnf_alpha => 4.0
  | .tgf_beta => 2.5 | .pdl1_ctc => 0.5 | .hla_dr => 80.0 | .ctc => 2.5
  | .ang2 => 2000.0 | .lymphocytes => 2000.0
  | .esr1_mutations => 0.0 | .pgr => 10.0 | .brca => 0.0 | .pik3ca => 0.0
  | .tp53 => 0.0 | .her2_mutations => 0.0
  | .her2_circ => 2.5 | .mdr1 => 75.0 | .cyp2d6 => 1.5 | .survivin => 0.25
  | .hsp => 7.5 | .mir200 => 2.5
  | .exosomes => 50.0 | .vegf => 200.0 | .mrp1 => 50.0 | .ki67 => 15.0
  | .glucose => 95.0 | .lactate => 1.1 | .ldh => 125.0 | .albumin => 4.0
  | .beta_hydroxybutyrate => 0.25
  | .blood_ph => 7.4 | .folate => 10.0 | .vitamin_d => 40.0
  | .creatinine => 1.0 | .bun => 15.0 | .alt => 25.0 | .ast => 25.0
  | .bilirubin => 1.0

/-- A user-supplied biomarker map: keys may be absent (`none`). -/
def UserBiomarkers : Type := BiomarkerKey → Option ℚ

/-- Embedding of `get_biomarkers_for_calculation(biomarkers, core_markers)`.

Mirrors the source exactly: the `core_markers is None or len(core_markers)
== 0` branch and the non-empty-selector branch return the *same* dict
comprehension `{k: biomarkers.get(k, REFERENCE_VALUES_FOR_IMPUTATION.get(k,
0.0)) for k in ALL_BIOMARKERS}`; despite the comment "only core keys from
user; rest to reference", the non-empty branch applies no restriction. -/
def get_biomarkers_for_calculation (biomarkers : UserBiomarkers)
    (core_markers : Option (List BiomarkerKey)) : BiomarkerKey → ℚ :=
  match core_markers with
  | none =>
      -- Full panel: impute missing biomarkers to reference values
      fun k => (biomarkers k).getD (REFERENCE_VALUES_FOR_IMPUTATION k)
  | some cs =>
      if cs.length = 0 then
        fun k => (biomarkers k).getD (REFERENCE_VALUES_FOR_IMPUTATION k)
      else
        -- source comment: "only core keys from user; rest to reference"
        -- but the returned comprehension is identical to the full branch
        fun k => (biomarkers k).getD (REFERENCE_VALUES_FOR_IMPUTATION k)

/-- The 13 composite indices of `calculate_composite_scores`. -/
structure CompositeScores where
  s_tumor : ℚ
  s_prolif : ℚ
  s_immune : ℚ
  s_suppress : ℚ
  G : ℚ
  s_genetic : ℚ
  s_metabolic : ℚ
  s_stress : ℚ
  s_activation : ℚ
  f_resist1 : ℚ
  f_resist2 : ℚ
  s_quiescence : ℚ
  f_metastatic : ℚ

/-- Embedding of `calculate_composite_scores(biomarkers)`. -/
def calculate_composite_scores (b : BiomarkerKey → ℚ) : CompositeScores :=
  let s_metabolic := (1/3) * (b .glucose / 95 + b .lactate / 2.2 + b .ldh / 250)
  let nutrient_stress := max 0 ((100 - b .glucose) / 100)
  let metabolic_stress := min 1.0 (b .lactate / 4.0)
  let f_emt := max 0 ((5 - b .mir200) / 5)
  { s_tumor := (1/5) * (b .ca153 / 31.3 + b .ca2729 / 38 + b .cea / 3.0 +
      b .ctc / 5 + b .ctdna / 1.0)
    s_prolif := (1/4) * (b .tk1 / 2.0 + b .glucose / 95 + b .lactate / 2.2 +
      b .survivin / 0.5)
    s_immune := 0.4 * (b .cd8 / 700) + 0.3 * (b .cd4 / 1050) +
      0.2 * (b .nk / 345) + 0.1 * (b .ifn_gamma / 2.0)
    s_suppress := (1/3) * (b .il10 / 5.0 + b .tgf_beta / 2.5 + b .pdl1_ctc / 1.0)
    G := max 0.1 (min 1.0 (1 - 0.3 * (b .ctdna / 1.0) -
      0.2 * (b .pik3ca / 10) - 0.2 * (b .tp53 / 10)))
    s_genetic := (1/3) * (b .ctdna / 1.0 + b .pik3ca / 10 + b .tp53 / 10)
    s_metabolic := s_metabolic
    s_stress := s_metabolic
    s_activation := (1/2) * (b .ifn_gamma / 5 + b .cd4 / 1200)
    f_resist1 := max 0.1 (min 2.0 ((1/4) * (b .esr1_mutations / 8 +
      b .pgr / 20 + b .pik3ca / 5 + b .survivin / 6)))
    f_resist2 := max 0.1 (min 2.0 ((1/4) * (b .her2_mutations / 10 +
      b .mdr1 / 150 + b .survivin / 6 + b .hsp / 10)))
    s_quiescence := (nutrient_stress + metabolic_stress) / 2
    f_metastatic := (1/3) * (b .ctc / 20 + f_emt + b .exosomes / 100) }

/-- Result record of `calculate_organ_functions`. -/
structure OrganFunctions where
  f_liver : ℚ
  f_kidney : ℚ
  f_clearance : ℚ

/-- Embedding of `calculate_organ_functions(biomarkers)`. -/
def calculate_organ_functions (b : BiomarkerKey → ℚ) : OrganFunctions :=
  let alt_factor := max 0.2 (min 1.2 (40 / max (b .alt) 5))
  let ast_factor := max 0.2 (min 1.2 (45 / max (b .ast) 8))
  let bilirubin_factor := max 0.5 (min 1.5 (1.2 / max (b .bilirubin) 0.1))
  let f_liver := (alt_factor + ast_factor + bilirubin_factor) / 3
  let creatinine_factor := max 0.3 (min 1.3 (1.2 / max (b .creatinine) 0.5))
  let bun_factor := max 0.3 (min 1.3 (20 / max (b .bun) 5))
  let f_kidney := (creatinine_factor + bun_factor) / 2
  { f_liver := f_liver
    f_kidney := f_kidney
    f_clearance := f_liver * f_kidney }

/-- The parameter set built by `calculate_all_parameters`: the 37 model
parameters plus the exposed composite `G` and the auxiliary `alpha_acid`
(insertion order of the Python dict). -/
structure Params where
  G : ℚ
  lambda1 : ℚ
  lambda2 : ℚ
  lambdaR1 : ℚ
  lambdaR2 : ℚ
  K : ℚ
  beta1 : ℚ
  beta2 : ℚ
  phi1 : ℚ
  phi2 : ℚ
  phi3 : ℚ
  deltaI : ℚ
  omegaR1 : ℚ
  omegaR2 : ℚ
  etaE : ℚ
  etaC : ℚ
  etaH : ℚ
  etaI : ℚ
  kel : ℚ
  k_metabolism : ℚ
  k_clearance : ℚ
  alphaA : ℚ
  deltaA : ℚ
  kappaQ : ℚ
  lambdaQ : ℚ
  kappaS : ℚ
  deltaS : ℚ
  gamma : ℚ
  deltaP : ℚ
  mu : ℚ
  nu : ℚ
  deltaG : ℚ
  kappaM : ℚ
  deltaM : ℚ
  kappaH : ℚ
  deltaH : ℚ
  rho1 : ℚ
  rho2 : ℚ
  alpha_acid : ℚ

/-- Embedding of `f_general` of `calculate_all_parameters` (lines 294-297). -/
def f_general (bu : BiomarkerKey → ℚ) : ℚ :=
  (bu .albumin / 4.0 + max 0.5 (1 - 0.3 * |95 - bu .glucose| / 95)) / 2

/-- Embedding of `f_organs` (line 298). -/
def f_organs (organs : OrganFunctions) : ℚ :=
  (organs.f_liver + organs.f_kidney) / 2

/-- Embedding of `f_metabolism` of the `etaE` formula (lines 302-304). -/
def f_metabolism (bu : BiomarkerKey → ℚ) (organs : OrganFunctions) : ℚ :=
  (organs.f_liver + min 1.0 (bu .cyp2d6 / 2.0) + f_general bu) / 3

/-- Embedding of `f_resist_hormone` of the `etaE` formula (lines 305-306). -/
def f_resist_hormone (bu : BiomarkerKey → ℚ) (scores : CompositeScores) : ℚ :=
  1 - min 0.9 (0.6 * (bu .esr1_mutations / 8) + 0.4 * scores.s_genetic)

/-- Embedding of `f_HER2` of the `etaH` formula (lines 313-315). -/
def f_HER2 (bu : BiomarkerKey → ℚ) : ℚ :=
  min 1.0 (bu .her2_circ / 5.0) * (1 - 0.6 * (bu .her2_mutations / 10))

/-- Embedding of `f_immune_ctx` of the `etaI` formula (lines 321-325). -/
def f_immune_ctx (bu : BiomarkerKey → ℚ) : ℚ :=
  (bu .cd8 / 700 + bu .cd4 / 1050 + bu .ifn_gamma / 2.0 +
    max 0.0 (1.0 - bu .il10 / 15)) / 4

/-- Formula λ₁ = max(0.01, min(0.15, 0.04 × (1 + 1.5 × s_prolif))) (line 250). -/
def lambda1_formula (scores : CompositeScores) : ℚ :=
  max 0.01 (min 0.15 (0.04 * (1 + 1.5 * scores.s_prolif)))

/-- Formula λ₂ = max(0.005, min(0.1, 0.6 × λ₁ × (1 + 0.5 × f_resist1))) (line 253). -/
def lambda2_formula (scores : CompositeScores) : ℚ :=
  max 0.005 (min 0.1 (0.6 * lambda1_formula scores * (1 + 0.5 * scores.f_resist1)))

/-- Formula λ_R1 = max(0.003, min(0.05, 0.4 × λ₁ × f_resist1)) (line 256). -/
def lambdaR1_formula (scores : CompositeScores) : ℚ :=
  max 0.003 (min 0.05 (0.4 * lambda1_formula scores * scores.f_resist1))

/-- Formula λ_R2 = max(0.001, min(0.03, 0.25 × λ₁ × (1 − 0.3 × f_resist2))) (line 259). -/
def lambdaR2_formula (scores : CompositeScores) : ℚ :=
  max 0.001 (min 0.03 (0.25 * lambda1_formula scores * (1 - 0.3 * scores.f_resist2)))

/-- K = max(100, min(15000, s_tumor × 2000)) (line 262). -/
def K_formula (scores : CompositeScores) : ℚ :=
  max 100 (min 15000 (scores.s_tumor * 2000))

/-- Formula β₁ = max(0.001, min(0.1, 0.02 × s_immune × (1 − s_suppress))) (line 266). -/
def beta1_formula (scores : CompositeScores) : ℚ :=
  max 0.001 (min 0.1 (0.02 * scores.s_immune * (1 - scores.s_suppress)))

/-- Formula β₂ = max(0.01, min(0.5, 0.05 + 0.15 × s_suppress)) (line 269). -/
def beta2_formula (scores : CompositeScores) : ℚ :=
  max 0.01 (min 0.5 (0.05 + 0.15 * scores.s_suppress))

/-- Formula φ₁ = max(0.01, min(0.2, 0.05 + 0.1 × s_activation)) (line 272). -/
def phi1_formula (scores : CompositeScores) : ℚ :=
  max 0.01 (min 0.2 (0.05 + 0.1 * scores.s_activation))

/-- Formula φ₂ = max(0.005, min(0.1, 0.01 + 0.03 × (s_tumor/2))) (line 275). -/
def phi2_formula (scores : CompositeScores) : ℚ :=
  max 0.005 (min 0.1 (0.01 + 0.03 * (scores.s_tumor / 2)))

/-- Formula φ₃ = max(0.005, min(0.15, 0.02 + 0.08 × (IL-10/15))) (line 278). -/
def phi3_formula (bu : BiomarkerKey → ℚ) : ℚ :=
  max 0.005 (min 0.15 (0.02 + 0.08 * (bu .il10 / 15)))

/-- Formula δ_I = max(0.02, min(0.3, 0.05 + 0.1 × s_stress)) (line 281). -/
def deltaI_formula (scores : CompositeScores) : ℚ :=
  max 0.02 (min 0.3 (0.05 + 0.1 * scores.s_stress))

/-- Formula ω_R1 = max(0.0001, min(0.01, 0.002 × s_genetic × s_stress)) (line 285). -/
def omegaR1_formula (scores : CompositeScores) : ℚ :=
  max 0.0001 (min 0.01 (0.002 * scores.s_genetic * scores.s_stress))

/-- Formula ω_R2 = max(0.0001, min(0.008, 0.001 × s_genetic × s_stress)) (line 288). -/
def omegaR2_formula (scores : CompositeScores) : ℚ :=
  max 0.0001 (min 0.008 (0.001 * scores.s_genetic * scores.s_stress))

/-- Formula η_E = max(0.1, min(0.95, f_receptor × f_metabolism × f_resist_hormone)),
f_receptor = min(1, esr1_protein/6) (lines 302-307). -/
def etaE_formula (bu : BiomarkerKey → ℚ) (scores : CompositeScores)
    (organs : OrganFunctions) : ℚ :=
  max 0.1 (min 0.95 (min 1.0 (bu .esr1_protein / 6.0) *
    f_metabolism bu organs * f_resist_hormone bu scores))

/-- Formula η_C = max(0.1, min(0.95, f_general × f_organs × (1 − 0.7 × f_resist2))) (line 310). -/
def etaC_formula (bu : BiomarkerKey → ℚ) (scores : CompositeScores)
    (organs : OrganFunctions) : ℚ :=
  max 0.1 (min 0.95 (f_general bu * f_organs organs * (1 - 0.7 * scores.f_resist2)))

/-- Formula η_H = max(0.1, min(0.95, f_HER2 × f_organs × (1 − 0.5 × f_resist2))) (line 316). -/
def etaH_formula (bu : BiomarkerKey → ℚ) (scores : CompositeScores)
    (organs : OrganFunctions) : ℚ :=
  max 0.1 (min 0.95 (f_HER2 bu * f_organs organs * (1 - 0.5 * scores.f_resist2)))

/-- Formula η_I = max(0.1, min(0.95, f_PDL1 × f_immune_ctx × f_general)),
f_PDL1 = min(1, pdl1_ctc/3) (lines 320-326). -/
def etaI_formula (bu : BiomarkerKey → ℚ) : ℚ :=
  max 0.1 (min 0.95 (min 1.0 (bu .pdl1_ctc / 3.0) * f_immune_ctx bu * f_general bu))

/-- k_el = max(0.05, min(0.3, 0.1 / f_clearance)) (line 330). -/
def kel_formula (organs : OrganFunctions) : ℚ :=
  max 0.05 (min 0.3 (0.1 / organs.f_clearance))

/-- k_metabolism = max(0.02, min(0.2, 0.05 × f_liver)) (line 333). -/
def k_metabolism_formula (organs : OrganFunctions) : ℚ :=
  max 0.02 (min 0.2 (0.05 * organs.f_liver))

/-- k_clearance = max(0.1, min(0.5, 0.2 × f_clearance)) (line 336). -/
def k_clearance_formula (organs : OrganFunctions) : ℚ :=
  max 0.1 (min 0.5 (0.2 * organs.f_clearance))

/-- Formula α_A = max(0.001, min(0.1, 0.02 × (1 + VEGF/400) × (1 + Ang-2/3000))) (line 340). -/
def alphaA_formula (bu : BiomarkerKey → ℚ) : ℚ :=
  max 0.001 (min 0.1 (0.02 * (1 + bu .vegf / 400) * (1 + bu .ang2 / 3000)))

/-- Formula δ_A = max(0.05, min(0.2, 0.1 × f_clearance)) (line 343). -/
def deltaA_formula (organs : OrganFunctions) : ℚ :=
  max 0.05 (min 0.2 (0.1 * organs.f_clearance))

/-- Formula κ_Q = max(0.001, min(0.05, 0.005 + 0.02 × s_quiescence)) (line 346). -/
def kappaQ_formula (scores : CompositeScores) : ℚ :=
  max 0.001 (min 0.05 (0.005 + 0.02 * scores.s_quiescence))

/-- Formula λ_Q = max(0.0005, min(0.02, 0.002 + 0.01 × (1 − s_quiescence))) (line 349). -/
def lambdaQ_formula (scores : CompositeScores) : ℚ :=
  max 0.0005 (min 0.02 (0.002 + 0.01 * (1 - scores.s_quiescence)))

/-- Formula κ_S = max(0.001, min(0.04, 0.002 + 0.01 × s_stress)) (line 352). -/
def kappaS_formula (scores : CompositeScores) : ℚ :=
  max 0.001 (min 0.04 (0.002 + 0.01 * scores.s_stress))

/-- Formula δ_S = max(0.02, min(0.1, 0.05 × s_immune)) (line 355). -/
def deltaS_formula (scores : CompositeScores) : ℚ :=
  max 0.02 (min 0.1 (0.05 * scores.s_immune))

/-- Formula γ = max(0.0001, min(0.01, 0.002 × f_metastatic)) (line 358). -/
def gamma_formula (scores : CompositeScores) : ℚ :=
  max 0.0001 (min 0.01 (0.002 * scores.f_metastatic))

/-- Formula δ_P = max(0.02, min(0.1, 0.05 + 0.03 × s_immune)) (line 361). -/
def deltaP_formula (scores : CompositeScores) : ℚ :=
  max 0.02 (min 0.1 (0.05 + 0.03 * scores.s_immune))

/-- Formula μ = max(0.001, min(0.05, 0.01 × (1 + 1.5 × s_genetic))) (line 365). -/
def mu_formula (scores : CompositeScores) : ℚ :=
  max 0.001 (min 0.05 (0.01 * (1 + 1.5 * scores.s_genetic)))

/-- Formula ν = max(0.0001, min(0.01, 0.002 × s_genetic × (1 + s_stress))) (line 369). -/
def nu_formula (scores : CompositeScores) : ℚ :=
  max 0.0001 (min 0.01 (0.002 * scores.s_genetic * (1 + scores.s_stress)))

/-- Formula δ_G = max(0.001, min(0.05, 0.01 × brca_factor × G)),
brca_factor = 1 − min(0.5, brca/2) (lines 373-374). -/
def deltaG_formula (bu : BiomarkerKey → ℚ) (scores : CompositeScores) : ℚ :=
  max 0.001 (min 0.05 (0.01 * (1.0 - min 0.5 (bu .brca / 2.0)) * scores.G))

/-- Formula κ_M = max(0.001, min(0.1, 0.02 × s_metabolic × bhb_factor)),
bhb_factor = max(0.5, 1 − beta_hydroxybutyrate/2) (lines 379-380). -/
def kappaM_formula (bu : BiomarkerKey → ℚ) (scores : CompositeScores) : ℚ :=
  max 0.001 (min 0.1 (0.02 * scores.s_metabolic *
    max 0.5 (1 - bu .beta_hydroxybutyrate / 2.0)))

/-- Formula δ_M = max(0.001, min(0.05, 0.01 × (1 − 0.5 × s_metabolic))) (line 384). -/
def deltaM_formula (scores : CompositeScores) : ℚ :=
  max 0.001 (min 0.05 (0.01 * (1 - 0.5 * scores.s_metabolic)))

/-- Formula κ_H = max(0.001, min(0.1, 0.02 × max(0, s_tumor − 0.5))) (line 389). -/
def kappaH_formula (scores : CompositeScores) : ℚ :=
  max 0.001 (min 0.1 (0.02 * max 0 (scores.s_tumor - 0.5)))

/-- Formula δ_H = max(0.01, min(0.1, 0.05 × (1 + f_clearance))) (line 393). -/
def deltaH_formula (organs : OrganFunctions) : ℚ :=
  max 0.01 (min 0.1 (0.05 * (1 + organs.f_clearance)))

/-- Formula ρ₁ = max(0.6, min(0.9, 0.75 + 0.15 × s_immune)) (line 398). -/
def rho1_formula (scores : CompositeScores) : ℚ :=
  max 0.6 (min 0.9 (0.75 + 0.15 * scores.s_immune))

/-- Formula ρ₂ = max(0.3, min(0.6, 0.45 − 0.15 × f_resist2)) (line 402). -/
def rho2_formula (scores : CompositeScores) : ℚ :=
  max 0.3 (min 0.6 (0.45 - 0.15 * scores.f_resist2))

/-- Formula α_acid = max(0.01, min(0.5, 2.0 × max(0, 7.4 − blood_ph))) (lines 407-408). -/
def alpha_acid_formula (bu : BiomarkerKey → ℚ) : ℚ :=
  max 0.01 (min 0.5 (2.0 * max 0.0 (7.4 - bu .blood_ph)))

/-- The parameter formulas of `calculate_all_parameters` (lines 244-408),
before the constraint-enforcement step: each field is the corresponding
`*_formula` definition above, which transcribes the source line named in
its doc comment.  `parameters['G'] = scores['G']` (line 246). -/
def deriveParameters (bu : BiomarkerKey → ℚ) (scores : CompositeScores)
    (organs : OrganFunctions) : Params where
  G := scores.G
  lambda1 := lambda1_formula scores
  lambda2 := lambda2_formula scores
  lambdaR1 := lambdaR1_formula scores
  lambdaR2 := lambdaR2_formula scores
  K := K_formula scores
  beta1 := beta1_formula scores
  beta2 := beta2_formula scores
  phi1 := phi1_formula scores
  phi2 := phi2_formula scores
  phi3 := phi3_formula bu
  deltaI := deltaI_formula scores
  omegaR1 := omegaR1_formula scores
  omegaR2 := omegaR2_formula scores
  etaE := etaE_formula bu scores organs
  etaC := etaC_formula bu scores organs
  etaH := etaH_formula bu scores organs
  etaI := etaI_formula bu
  kel := kel_formula organs
  k_metabolism := k_metabolism_formula organs
  k_clearance := k_clearance_formula organs
  alphaA := alphaA_formula bu
  deltaA := deltaA_formula organs
  kappaQ := kappaQ_formula scores
  lambdaQ := lambdaQ_formula scores
  kappaS := kappaS_formula scores
  deltaS := deltaS_formula scores
  gamma := gamma_formula scores
  deltaP := deltaP_formula scores
  mu := mu_formula scores
  nu := nu_formula scores
  deltaG := deltaG_formula bu scores
  kappaM := kappaM_formula bu scores
  deltaM := deltaM_formula scores
  kappaH := kappaH_formula scores
  deltaH := deltaH_formula organs
  rho1 := rho1_formula scores
  rho2 := rho2_formula scores
  alpha_acid := alpha_acid_formula bu

/-- Repaired λ₂ (lines 412-414): rewritten to 0.99 × λ₁ when λ₁ ≤ λ₂. -/
def enforcedLambda2 (p : Params) : ℚ :=
  if p.lambda1 ≤ p.lambda2 then p.lambda1 * 0.99 else p.lambda2

/-- Repaired λ_R1 (lines 415-417): checked against the (possibly already
repaired) λ₂, exactly as the in-place dict mutation does. -/
def enforcedLambdaR1 (p : Params) : ℚ :=
  if enforcedLambda2 p ≤ p.lambdaR1 then enforcedLambda2 p * 0.99 else p.lambdaR1

/-- Repaired λ_R2 (lines 418-420): checked against the possibly repaired λ_R1. -/
def enforcedLambdaR2 (p : Params) : ℚ :=
  if enforcedLambdaR1 p ≤ p.lambdaR2 then enforcedLambdaR1 p * 0.99 else p.lambdaR2

/-- The "Validate biological constraints" block of `calculate_all_parameters`
(lines 410-420): three sequential checks in document order; a failing check
appends its message (in document order) and rewrites the second parameter of
the pair to 0.99 × the first, so repairs cascade left to right.  The Python
code mutates the dict in place; each check here reads the value current at
that point of the mutation sequence via the `enforced*` definitions above. -/
def enforceConstraints (p : Params) : Params × List String :=
  ({ p with
      lambda2 := enforcedLambda2 p
      lambdaR1 := enforcedLambdaR1 p
      lambdaR2 := enforcedLambdaR2 p },
    (if p.lambda1 ≤ p.lambda2 then ["λ₁ must be > λ₂"] else []) ++
    (if enforcedLambda2 p ≤ p.lambdaR1 then ["λ₂ must be > λ_R1"] else []) ++
    (if enforcedLambdaR1 p ≤ p.lambdaR2 then ["λ_R1 must be > λ_R2"] else []))

/-- Embedding of `CORE_PANEL_PARAMETER_COVERAGE`: static per-parameter coverage labels. -/
def CORE_PANEL_PARAMETER_COVERAGE : List (String × String) :=
  [("lambda1", "core_driven"), ("lambda2", "partly_core"),
   ("lambdaR1", "partly_core"), ("lambdaR2", "partly_core"),
   ("K", "partly_core"), ("beta1", "core_driven"), ("beta2", "partly_core"),
   ("phi1", "core_driven"), ("phi2", "partly_core"), ("phi3", "core_driven"),
   ("deltaI", "core_driven"), ("omegaR1", "partly_core"),
   ("omegaR2", "partly_core"), ("etaE", "partly_core"),
   ("etaC", "partly_core"), ("etaH", "partly_core"), ("etaI", "core_driven"),
   ("kel", "imputed_only"), ("k_metabolism", "imputed_only"),
   ("k_clearance", "imputed_only"), ("alphaA", "imputed_only"),
   ("deltaA", "imputed_only"), ("kappaQ", "core_driven"),
   ("lambdaQ", "core_driven"), ("kappaS", "core_driven"),
   ("deltaS", "core_driven"), ("gamma", "imputed_only"),
   ("deltaP", "core_driven"), ("mu", "partly_core"), ("nu", "partly_core"),
   ("deltaG", "partly_core"), ("kappaM", "partly_core"),
   ("deltaM", "partly_core"), ("kappaH", "partly_core"),
   ("deltaH", "imputed_only"), ("rho1", "core_driven"),
   ("rho2", "partly_core"), ("G", "partly_core")]

/-- Output of `calculate_all_parameters`.  In Python the last two keys are
present in the returned dict only when `imputed` is true; we model absence
as `imputed_core_panel = false` / `parameter_coverage = none`. -/
structure CalcResult where
  parameters : Params
  scores : CompositeScores
  organs : OrganFunctions
  constraint_violations : List String
  imputed_core_panel : Bool
  parameter_coverage : Option (List (String × String))

/-- Embedding of `calculate_all_parameters(biomarkers, core_markers)`. -/
def calculate_all_parameters (biomarkers : UserBiomarkers)
    (core_markers : Option (List BiomarkerKey)) : CalcResult :=
  let biomarkers_use := get_biomarkers_for_calculation biomarkers core_markers
  let imputed : Bool := match core_markers with
    | none => false
    | some cs => decide (0 < cs.length)
  let scores := calculate_composite_scores biomarkers_use
  let organs := calculate_organ_functions biomarkers_use
  let parameters0 := deriveParameters biomarkers_use scores organs
  let enforced := enforceConstraints parameters0
  { parameters := enforced.1
    scores := scores
    organs := organs
    constraint_violations := enforced.2
    imputed_core_panel := imputed
    parameter_coverage :=
      if imputed then some CORE_PANEL_PARAMETER_COVERAGE else none }

/-- Stability labels returned by `assess_mathematical_stability`. -/
inductive Stability where
  | STABLE | MARGINAL | UNSTABLE
  deriving DecidableEq

/-- Embedding of `assess_mathematical_stability(parameters)`.  (`phi1` is read by the
Python function but never used.)  The score comparisons `2/3 >= 0.67` and
`1/3 >= 0.33` are decided identically by IEEE doubles and by rationals. -/
def assess_mathematical_stability (parameters : Params) : Stability × String :=
  let lambda1 := parameters.lambda1
  let lambda2 := parameters.lambda2
  let beta1 := parameters.beta1
  let K := parameters.K
  let growth_stability : Bool := decide (lambda1 > lambda2)
  let immune_stability : Bool := decide (beta1 * 1000 > lambda1)
  let capacity_stability : Bool := decide (K > 1000)
  let stability_score : ℚ :=
    ((if growth_stability then 1 else 0) + (if immune_stability then 1 else 0) +
      (if capacity_stability then 1 else 0)) / 3
  if stability_score ≥ 0.67 then
    (Stability.STABLE, "✅ Mathematical stability confirmed - reliable predictions expected")
  else if stability_score ≥ 0.33 then
    (Stability.MARGINAL, "⚠️ Marginal stability - monitor predictions carefully")
  else
    (Stability.UNSTABLE, "❌ Mathematical instability - recommend frequent monitoring")
/-- A concrete parameter set with exactly two of the three stability
heuristics true: growth (λ1 > λ2) and capacity (K > 1000) hold, the immune
heuristic (β1 × 1000 > λ1) fails. -/
def cexParams : Params where
  G := 1/2
  lambda1 := 1/20
  lambda2 := 1/100
  lambdaR1 := 1/200
  lambdaR2 := 1/500
  K := 5000
  beta1 := 1/100000
  beta2 := 1/10
  phi1 := 1/10
  phi2 := 1/100
  phi3 := 1/50
  deltaI := 1/10
  omegaR1 := 1/1000
  omegaR2 := 1/1000
  etaE := 1/2
  etaC := 1/2
  etaH := 1/2
  etaI := 1/2
  kel := 1/10
  k_metabolism := 1/10
  k_clearance := 1/5
  alphaA := 1/50
  deltaA := 1/10
  kappaQ := 1/100
  lambdaQ := 1/100
  kappaS := 1/100
  deltaS := 1/20
  gamma := 1/1000
  deltaP := 1/20
  mu := 1/100
  nu := 1/1000
  deltaG := 1/100
  kappaM := 1/100
  deltaM := 1/100
  kappaH := 1/100
  deltaH := 1/20
  rho1 := 3/4
  rho2 := 1/2
  alpha_acid := 1/10

/-! ## Helper lemmas -/

/-- A clamp `max lo (min hi x)` lands in the closed interval `[lo, hi]`. -/
theorem clamp_mem {lo hi : ℚ} (x : ℚ) (h : lo ≤ hi) :
    lo ≤ max lo (min hi x) ∧ max lo (min hi x) ≤ hi :=
  ⟨le_max_left _ _, max_le h (min_le_left _ _)⟩

/-- A repair step `if a ≤ b then a * 0.99 else b` yields a value strictly
below `a` whenever `a` is positive. -/
theorem repairedValue_lt {a b : ℚ} (ha : 0 < a) :
    (if a ≤ b then a * 0.99 else b) < a := by
  split_ifs with h
  · nlinarith
  · exact lt_of_not_le h

/-- A repair step keeps positivity. -/
theorem repairedValue_pos {a b : ℚ} (ha : 0 < a) (hb : 0 < b) :
    0 < (if a ≤ b then a * 0.99 else b) := by
  split_ifs with h
  · nlinarith
  · exact hb

/-- After the three repair steps the chain is strictly decreasing, provided
the three leading pre-repair values are positive. -/
theorem enforce_chain (p : Params) (h1 : 0 < p.lambda1) (h2 : 0 < p.lambda2)
    (h3 : 0 < p.lambdaR1) :
    (enforcedLambda2 p < p.lambda1 ∧ enforcedLambdaR1 p < enforcedLambda2 p ∧
      enforcedLambdaR2 p < enforcedLambdaR1 p) ∧
    (0 < enforcedLambda2 p ∧ 0 < enforcedLambdaR1 p) := by
  have hl2 : 0 < enforcedLambda2 p := repairedValue_pos h1 h2
  have hr1 : 0 < enforcedLambdaR1 p := repairedValue_pos hl2 h3
  exact ⟨⟨repairedValue_lt h1, repairedValue_lt hl2, repairedValue_lt hr1⟩, hl2, hr1⟩

theorem lambda1_formula_pos (s : CompositeScores) : 0 < lambda1_formula s :=
  lt_of_lt_of_le (by norm_num) (le_max_left _ _)

theorem lambda2_formula_pos (s : CompositeScores) : 0 < lambda2_formula s :=
  lt_of_lt_of_le (by norm_num) (le_max_left _ _)

theorem lambdaR1_formula_pos (s : CompositeScores) : 0 < lambdaR1_formula s :=
  lt_of_lt_of_le (by norm_num) (le_max_left _ _)

/-- On a parameter set already satisfying the strict chain, the enforcement
block rewrites nothing and reports no violation. -/
theorem enforce_noop (p : Params) (o1 : p.lambda2 < p.lambda1)
    (o2 : p.lambdaR1 < p.lambda2) (o3 : p.lambdaR2 < p.lambdaR1) :
    enforceConstraints p = (p, []) := by
  have e2 : enforcedLambda2 p = p.lambda2 := by
    unfold enforcedLambda2; rw [if_neg (not_le.mpr o1)]
  have e3 : enforcedLambdaR1 p = p.lambdaR1 := by
    unfold enforcedLambdaR1; rw [e2, if_neg (not_le.mpr o2)]
  have e4 : enforcedLambdaR2 p = p.lambdaR2 := by
    unfold enforcedLambdaR2; rw [e3, if_neg (not_le.mpr o3)]
  unfold enforceConstraints
  rw [e2, e3, e4, if_neg (not_le.mpr o1), if_neg (not_le.mpr o2),
    if_neg (not_le.mpr o3)]
  simp

/-- The three repaired values stay inside the documented intervals of
λ₂, λ_R1, λ_R2 whenever the pre-repair values do. -/
theorem enforce_growth_bounds (p : Params)
    (h1a : 0.01 ≤ p.lambda1)
    (h2a : 0.005 ≤ p.lambda2) (h2b : p.lambda2 ≤ 0.1)
    (h3a : 0.003 ≤ p.lambdaR1) (h3b : p.lambdaR1 ≤ 0.05)
    (h4a : 0.001 ≤ p.lambdaR2) (h4b : p.lambdaR2 ≤ 0.03) :
    ((0.005 ≤ enforcedLambda2 p ∧ enforcedLambda2 p ≤ 0.1) ∧
     (0.003 ≤ enforcedLambdaR1 p ∧ enforcedLambdaR1 p ≤ 0.05) ∧
     (0.001 ≤ enforcedLambdaR2 p ∧ enforcedLambdaR2 p ≤ 0.03)) := by
  unfold enforcedLambdaR2 enforcedLambdaR1 enforcedLambda2
  split_ifs <;>
    refine ⟨⟨by linarith, by linarith⟩, ⟨by linarith, by linarith⟩,
      ⟨by linarith, by linarith⟩⟩

/-! ## Claim theorems -/

/-- C1 (code bug): the spec and the function's own docstring require every
key outside a non-empty selector to be forced to its reference value, but
the code's selector branch is identical to the full-panel branch.  With
selector `[ca153]` and a user-supplied `vegf = 9999`, the resolved vector
keeps 9999 instead of the reference value 200. -/
theorem panel_restriction_violated_at_vegf :
    get_biomarkers_for_calculation
        (fun k => if k = BiomarkerKey.vegf then some 9999 else none)
        (some [BiomarkerKey.ca153]) BiomarkerKey.vegf = 9999 ∧
    REFERENCE_VALUES_FOR_IMPUTATION BiomarkerKey.vegf = 200 :=
  ⟨rfl, by norm_num [REFERENCE_VALUES_FOR_IMPUTATION]⟩

/-- C2: for every input biomarker map and selector, the parameter set
returned by `calculate_all_parameters` satisfies the strict chain
λ1 > λ2 > λR1 > λR2 after constraint enforcement. -/
theorem calculate_all_parameters_ordering_chain (b : UserBiomarkers)
    (cs : Option (List BiomarkerKey)) :
    (calculate_all_parameters b cs).parameters.lambda1 >
      (calculate_all_parameters b cs).parameters.lambda2 ∧
    (calculate_all_parameters b cs).parameters.lambda2 >
      (calculate_all_parameters b cs).parameters.lambdaR1 ∧
    (calculate_all_parameters b cs).parameters.lambdaR1 >
      (calculate_all_parameters b cs).parameters.lambdaR2 := by
  have h := enforce_chain (deriveParameters (get_biomarkers_for_calculation b cs)
      (calculate_composite_scores (get_biomarkers_for_calculation b cs))
      (calculate_organ_functions (get_biomarkers_for_calculation b cs)))
      (lambda1_formula_pos _) (lambda2_formula_pos _) (lambdaR1_formula_pos _)
  exact ⟨h.1.1, h.1.2.1, h.1.2.2⟩

/-- C4: the constraint repair is idempotent: running the three ordering
checks again on the parameter set returned by `calculate_all_parameters`
rewrites nothing and appends zero new violation records. -/
theorem constraint_repair_idempotent (b : UserBiomarkers)
    (cs : Option (List BiomarkerKey)) :
    enforceConstraints (calculate_all_parameters b cs).parameters =
      ((calculate_all_parameters b cs).parameters, []) := by
  have h := enforce_chain (deriveParameters (get_biomarkers_for_calculation b cs)
      (calculate_composite_scores (get_biomarkers_for_calculation b cs))
      (calculate_organ_functions (get_biomarkers_for_calculation b cs)))
      (lambda1_formula_pos _) (lambda2_formula_pos _) (lambdaR1_formula_pos _)
  exact enforce_noop _ h.1.1 h.1.2.1 h.1.2.2

/-- C10: `assess_mathematical_stability` never returns UNSTABLE on a
parameter set produced by `calculate_all_parameters`: enforcement
guarantees λ1 > λ2, so the growth heuristic holds and the stability score
is at least 1/3 ≥ 0.33, giving STABLE or MARGINAL. -/
theorem assess_never_unstable (b : UserBiomarkers)
    (cs : Option (List BiomarkerKey)) :
    (assess_mathematical_stability
      (calculate_all_parameters b cs).parameters).1 ≠ Stability.UNSTABLE := by
  have h := enforce_chain (deriveParameters (get_biomarkers_for_calculation b cs)
      (calculate_composite_scores (get_biomarkers_for_calculation b cs))
      (calculate_organ_functions (get_biomarkers_for_calculation b cs)))
      (lambda1_formula_pos _) (lambda2_formula_pos _) (lambdaR1_formula_pos _)
  have hg : (calculate_all_parameters b cs).parameters.lambda1 >
      (calculate_all_parameters b cs).parameters.lambda2 := h.1.1
  set p := (calculate_all_parameters b cs).parameters with hp
  simp only [assess_mathematical_stability]
  rw [decide_eq_true hg]
  rcases Bool.eq_false_or_eq_true (decide (p.beta1 * 1000 > p.lambda1)) with hi | hi <;>
    rcases Bool.eq_false_or_eq_true (decide (p.K > 1000)) with hc | hc <;>
      simp only [hi, hc, if_true, if_false] <;> norm_num <;> decide

/-- C3: every parameter returned by `calculate_all_parameters` (the 37
model parameters plus the exposed `G` and auxiliary `alpha_acid`),
including the constraint-repaired λ2, λR1, λR2, lies within its documented
closed interval, for every input biomarker map and selector. -/
theorem calculate_all_parameters_bounds (b : UserBiomarkers)
    (cs : Option (List BiomarkerKey)) :
    (0.1 ≤ (calculate_all_parameters b cs).parameters.G ∧ (calculate_all_parameters b cs).parameters.G ≤ 1.0) ∧
    (0.01 ≤ (calculate_all_parameters b cs).parameters.lambda1 ∧ (calculate_all_parameters b cs).parameters.lambda1 ≤ 0.15) ∧
    (0.005 ≤ (calculate_all_parameters b cs).parameters.lambda2 ∧ (calculate_all_parameters b cs).parameters.lambda2 ≤ 0.1) ∧
    (0.003 ≤ (calculate_all_parameters b cs).parameters.lambdaR1 ∧ (calculate_all_parameters b cs).parameters.lambdaR1 ≤ 0.05) ∧
    (0.001 ≤ (calculate_all_parameters b cs).parameters.lambdaR2 ∧ (calculate_all_parameters b cs).parameters.lambdaR2 ≤ 0.03) ∧
    (100 ≤ (calculate_all_parameters b cs).parameters.K ∧ (calculate_all_parameters b cs).parameters.K ≤ 15000) ∧
    (0.001 ≤ (calculate_all_parameters b cs).parameters.beta1 ∧ (calculate_all_parameters b cs).parameters.beta1 ≤ 0.1) ∧
    (0.01 ≤ (calculate_all_parameters b cs).parameters.beta2 ∧ (calculate_all_parameters b cs).parameters.beta2 ≤ 0.5) ∧
    (0.01 ≤ (calculate_all_parameters b cs).parameters.phi1 ∧ (calculate_all_parameters b cs).parameters.phi1 ≤ 0.2) ∧
    (0.005 ≤ (calculate_all_parameters b cs).parameters.phi2 ∧ (calculate_all_parameters b cs).parameters.phi2 ≤ 0.1) ∧
    (0.005 ≤ (calculate_all_parameters b cs).parameters.phi3 ∧ (calculate_all_parameters b cs).parameters.phi3 ≤ 0.15) ∧
    (0.02 ≤ (calculate_all_parameters b cs).parameters.deltaI ∧ (calculate_all_parameters b cs).parameters.deltaI ≤ 0.3) ∧
    (0.0001 ≤ (calculate_all_parameters b cs).parameters.omegaR1 ∧ (calculate_all_parameters b cs).parameters.omegaR1 ≤ 0.01) ∧
    (0.0001 ≤ (calculate_all_parameters b cs).parameters.omegaR2 ∧ (calculate_all_parameters b cs).parameters.omegaR2 ≤ 0.008) ∧
    (0.1 ≤ (calculate_all_parameters b cs).parameters.etaE ∧ (calculate_all_parameters b cs).parameters.etaE ≤ 0.95) ∧
    (0.1 ≤ (calculate_all_parameters b cs).parameters.etaC ∧ (calculate_all_parameters b cs).parameters.etaC ≤ 0.95) ∧
    (0.1 ≤ (calculate_all_parameters b cs).parameters.etaH ∧ (calculate_all_parameters b cs).parameters.etaH ≤ 0.95) ∧
    (0.1 ≤ (calculate_all_parameters b cs).parameters.etaI ∧ (calculate_all_parameters b cs).parameters.etaI ≤ 0.95) ∧
    (0.05 ≤ (calculate_all_parameters b cs).parameters.kel ∧ (calculate_all_parameters b cs).parameters.kel ≤ 0.3) ∧
    (0.02 ≤ (calculate_all_parameters b cs).parameters.k_metabolism ∧ (calculate_all_parameters b cs).parameters.k_metabolism ≤ 0.2) ∧
    (0.1 ≤ (calculate_all_parameters b cs).parameters.k_clearance ∧ (calculate_all_parameters b cs).parameters.k_clearance ≤ 0.5) ∧
    (0.001 ≤ (calculate_all_parameters b cs).parameters.alphaA ∧ (calculate_all_parameters b cs).parameters.alphaA ≤ 0.1) ∧
    (0.05 ≤ (calculate_all_parameters b cs).parameters.deltaA ∧ (calculate_all_parameters b cs).parameters.deltaA ≤ 0.2) ∧
    (0.001 ≤ (calculate_all_parameters b cs).parameters.kappaQ ∧ (calculate_all_parameters b cs).parameters.kappaQ ≤ 0.05) ∧
    (0.0005 ≤ (calculate_all_parameters b cs).parameters.lambdaQ ∧ (calculate_all_parameters b cs).parameters.lambdaQ ≤ 0.02) ∧
    (0.001 ≤ (calculate_all_parameters b cs).parameters.kappaS ∧ (calculate_all_parameters b cs).parameters.kappaS ≤ 0.04) ∧
    (0.02 ≤ (calculate_all_parameters b cs).parameters.deltaS ∧ (calculate_all_parameters b cs).parameters.deltaS ≤ 0.1) ∧
    (0.0001 ≤ (calculate_all_parameters b cs).parameters.gamma ∧ (calculate_all_parameters b cs).parameters.gamma ≤ 0.01) ∧
    (0.02 ≤ (calculate_all_parameters b cs).parameters.deltaP ∧ (calculate_all_parameters b cs).parameters.deltaP ≤ 0.1) ∧
    (0.001 ≤ (calculate_all_parameters b cs).parameters.mu ∧ (calculate_all_parameters b cs).parameters.mu ≤ 0.05) ∧
    (0.0001 ≤ (calculate_all_parameters b cs).parameters.nu ∧ (calculate_all_parameters b cs).parameters.nu ≤ 0.01) ∧
    (0.001 ≤ (calculate_all_parameters b cs).parameters.deltaG ∧ (calculate_all_parameters b cs).parameters.deltaG ≤ 0.05) ∧
    (0.001 ≤ (calculate_all_parameters b cs).parameters.kappaM ∧ (calculate_all_parameters b cs).parameters.kappaM ≤ 0.1) ∧
    (0.001 ≤ (calculate_all_parameters b cs).parameters.deltaM ∧ (calculate_all_parameters b cs).parameters.deltaM ≤ 0.05) ∧
    (0.001 ≤ (calculate_all_parameters b cs).parameters.kappaH ∧ (calculate_all_parameters b cs).parameters.kappaH ≤ 0.1) ∧
    (0.01 ≤ (calculate_all_parameters b cs).parameters.deltaH ∧ (calculate_all_parameters b cs).parameters.deltaH ≤ 0.1) ∧
    (0.6 ≤ (calculate_all_parameters b cs).parameters.rho1 ∧ (calculate_all_parameters b cs).parameters.rho1 ≤ 0.9) ∧
    (0.3 ≤ (calculate_all_parameters b cs).parameters.rho2 ∧ (calculate_all_parameters b cs).parameters.rho2 ≤ 0.6) ∧
    (0.01 ≤ (calculate_all_parameters b cs).parameters.alpha_acid ∧ (calculate_all_parameters b cs).parameters.alpha_acid ≤ 0.5) := by
  have hb := enforce_growth_bounds (deriveParameters (get_biomarkers_for_calculation b cs)
      (calculate_composite_scores (get_biomarkers_for_calculation b cs))
      (calculate_organ_functions (get_biomarkers_for_calculation b cs)))
      (clamp_mem _ (by norm_num)).1
      (clamp_mem _ (by norm_num)).1 (clamp_mem _ (by norm_num)).2
      (clamp_mem _ (by norm_num)).1 (clamp_mem _ (by norm_num)).2
      (clamp_mem _ (by norm_num)).1 (clamp_mem _ (by norm_num)).2
  exact ⟨clamp_mem _ (by norm_num),
    clamp_mem _ (by norm_num),
    hb.1,
    hb.2.1,
    hb.2.2,
    clamp_mem _ (by norm_num),
    clamp_mem _ (by norm_num),
    clamp_mem _ (by norm_num),
    clamp_mem _ (by norm_num),
    clamp_mem _ (by norm_num),
    clamp_mem _ (by norm_num),
    clamp_mem _ (by norm_num),
    clamp_mem _ (by norm_num),
    clamp_mem _ (by norm_num),
    clamp_mem _ (by norm_num),
    clamp_mem _ (by norm_num),
    clamp_mem _ (by norm_num),
    clamp_mem _ (by norm_num),
    clamp_mem _ (by norm_num),
    clamp_mem _ (by norm_num),
    clamp_mem _ (by norm_num),
    clamp_mem _ (by norm_num),
    clamp_mem _ (by norm_num),
    clamp_mem _ (by norm_num),
    clamp_mem _ (by norm_num),
    clamp_mem _ (by norm_num),
    clamp_mem _ (by norm_num),
    clamp_mem _ (by norm_num),
    clamp_mem _ (by norm_num),
    clamp_mem _ (by norm_num),
    clamp_mem _ (by norm_num),
    clamp_mem _ (by norm_num),
    clamp_mem _ (by norm_num),
    clamp_mem _ (by norm_num),
    clamp_mem _ (by norm_num),
    clamp_mem _ (by norm_num),
    clamp_mem _ (by norm_num),
    clamp_mem _ (by norm_num),
    clamp_mem _ (by norm_num)⟩

/-- C5 counterexample: a parameter set with exactly two of the three
heuristics true (growth and capacity hold, immune fails) is classified
MARGINAL, not STABLE: the score 2/3 = 0.666... falls below the 0.67
threshold, refuting "STABLE exactly when at least 2 of 3 are true". -/
theorem stability_two_of_three_not_stable :
    (cexParams.lambda1 > cexParams.lambda2 ∧
      ¬(cexParams.beta1 * 1000 > cexParams.lambda1) ∧ cexParams.K > 1000) ∧
    (assess_mathematical_stability cexParams).1 = Stability.MARGINAL ∧
    (assess_mathematical_stability cexParams).1 ≠ Stability.STABLE := by
  have h1 : cexParams.lambda1 > cexParams.lambda2 := by norm_num [cexParams]
  have h2 : ¬(cexParams.beta1 * 1000 > cexParams.lambda1) := by
    norm_num [cexParams]
  have h3 : cexParams.K > 1000 := by norm_num [cexParams]
  have hm : (assess_mathematical_stability cexParams).1 = Stability.MARGINAL := by
    simp only [assess_mathematical_stability]
    rw [decide_eq_true h1, decide_eq_false h2, decide_eq_true h3]
    norm_num
  refine ⟨⟨h1, h2, h3⟩, hm, ?_⟩
  rw [hm]
  decide

/-- C5 (amended): `assess_mathematical_stability` evaluates the three
booleans growth = (λ1 > λ2), immune = (β1×1000 > λ1), capacity = (K > 1000)
and returns STABLE exactly when all three are true (only then does the
score reach the 0.67 threshold, since 2/3 < 0.67), UNSTABLE exactly when
none is true, and MARGINAL otherwise (one or two true). -/
theorem assess_stability_classification (p : Params) :
    ((assess_mathematical_stability p).1 = Stability.STABLE ↔
      (p.lambda1 > p.lambda2 ∧ p.beta1 * 1000 > p.lambda1 ∧ p.K > 1000)) ∧
    ((assess_mathematical_stability p).1 = Stability.UNSTABLE ↔
      (¬(p.lambda1 > p.lambda2) ∧ ¬(p.beta1 * 1000 > p.lambda1) ∧
        ¬(p.K > 1000))) := by
  by_cases h1 : p.lambda1 > p.lambda2 <;>
    by_cases h2 : p.beta1 * 1000 > p.lambda1 <;>
      by_cases h3 : p.K > 1000 <;>
        simp only [assess_mathematical_stability, decide_eq_true_eq, h1, h2, h3,
          decide_True, decide_False, if_true, if_false, ite_true, ite_false] <;>
        norm_num <;> decide

/-- C6 counterexample: with an empty user map and no selector, the key
`esr1_mutations` is imputed from the catalog reference table, whose value
for it is exactly zero — refuting "its catalog reference value, which is
never zero". -/
theorem reference_value_zero_esr1_mutations :
    get_biomarkers_for_calculation (fun _ => none) none
      BiomarkerKey.esr1_mutations = 0 ∧
    REFERENCE_VALUES_FOR_IMPUTATION BiomarkerKey.esr1_mutations = 0 := by
  constructor <;>
    norm_num [get_biomarkers_for_calculation, REFERENCE_VALUES_FOR_IMPUTATION]

/-- C6 (amended): for every user-supplied map with non-negative values and
no selector (absent or empty), the resolved vector keeps every
user-supplied key at its given value and sets every absent key to its
catalog reference value; the reference values are non-negative but five
mutation markers have reference value zero, so the resolved vector has all
47 keys populated with (finite, exact-rational) non-negative values. -/
theorem full_panel_resolution (b : UserBiomarkers)
    (sel : Option (List BiomarkerKey)) (hsel : sel = none ∨ sel = some [])
    (hnn : ∀ k x, b k = some x → 0 ≤ x) (k : BiomarkerKey) :
    (∀ x, b k = some x → get_biomarkers_for_calculation b sel k = x) ∧
    (b k = none → get_biomarkers_for_calculation b sel k =
      REFERENCE_VALUES_FOR_IMPUTATION k) ∧
    0 ≤ get_biomarkers_for_calculation b sel k := by
  have hres : get_biomarkers_for_calculation b sel k =
      (b k).getD (REFERENCE_VALUES_FOR_IMPUTATION k) := by
    rcases hsel with h | h <;> subst h <;> rfl
  have href : 0 ≤ REFERENCE_VALUES_FOR_IMPUTATION k := by
    cases k <;> norm_num [REFERENCE_VALUES_FOR_IMPUTATION]
  refine ⟨?_, ?_, ?_⟩
  · intro x hx
    rw [hres, hx]
    rfl
  · intro hx
    rw [hres, hx]
    rfl
  · rw [hres]
    cases hbk : b k with
    | none => simpa using href
    | some x => simpa using hnn k x hbk

/-- Witness for C6 (amended): at the empty user map with no selector, the
key `ca153` is imputed to its reference value and is non-negative. -/
theorem full_panel_resolution_witness :
    get_biomarkers_for_calculation (fun _ => none) none BiomarkerKey.ca153 =
      REFERENCE_VALUES_FOR_IMPUTATION BiomarkerKey.ca153 ∧
    0 ≤ get_biomarkers_for_calculation (fun _ => none) none BiomarkerKey.ca153 :=
  ⟨(full_panel_resolution (fun _ => none) none (Or.inl rfl)
      (fun _ x h => by simp at h) BiomarkerKey.ca153).2.1 rfl,
   (full_panel_resolution (fun _ => none) none (Or.inl rfl)
      (fun _ x h => by simp at h) BiomarkerKey.ca153).2.2⟩

/-- C7: for every biomarker vector (arbitrary rational values, including
zero and negative organ markers), the `max(x, floor)` guards make
`f_liver` and `f_kidney` strictly positive, so
`f_clearance = f_liver * f_kidney` is strictly positive and nonzero and
the division `0.1 / f_clearance` in the `kel` formula never divides by
zero. -/
theorem organ_functions_positive (b : BiomarkerKey → ℚ) :
    0 < (calculate_organ_functions b).f_liver ∧
    0 < (calculate_organ_functions b).f_kidney ∧
    (calculate_organ_functions b).f_clearance =
      (calculate_organ_functions b).f_liver *
        (calculate_organ_functions b).f_kidney ∧
    0 < (calculate_organ_functions b).f_clearance ∧
    (calculate_organ_functions b).f_clearance ≠ 0 := by
  have hl : 0 < (calculate_organ_functions b).f_liver := by
    show 0 < (max 0.2 (min 1.2 (40 / max (b .alt) 5)) +
      max 0.2 (min 1.2 (45 / max (b .ast) 8)) +
      max 0.5 (min 1.5 (1.2 / max (b .bilirubin) 0.1))) / 3
    have h1 := le_max_left (0.2 : ℚ) (min 1.2 (40 / max (b .alt) 5))
    have h2 := le_max_left (0.2 : ℚ) (min 1.2 (45 / max (b .ast) 8))
    have h3 := le_max_left (0.5 : ℚ) (min 1.5 (1.2 / max (b .bilirubin) 0.1))
    linarith
  have hk : 0 < (calculate_organ_functions b).f_kidney := by
    show 0 < (max 0.3 (min 1.3 (1.2 / max (b .creatinine) 0.5)) +
      max 0.3 (min 1.3 (20 / max (b .bun) 5))) / 2
    have h1 := le_max_left (0.3 : ℚ) (min 1.3 (1.2 / max (b .creatinine) 0.5))
    have h2 := le_max_left (0.3 : ℚ) (min 1.3 (20 / max (b .bun) 5))
    linarith
  have hc : 0 < (calculate_organ_functions b).f_clearance := mul_pos hl hk
  exact ⟨hl, hk, rfl, hc, hc.ne'⟩

/-- C8: whenever the resolved vector has `her2_mutations = 0` and
`her2_circ = 0`, the factor `f_HER2` evaluates to 0 and the `etaH`
parameter returned by `calculate_all_parameters` equals its lower clamp
bound 0.1 exactly, independent of all other biomarker values. -/
theorem etaH_lower_bound_when_her2_zero (b : UserBiomarkers)
    (cs : Option (List BiomarkerKey))
    (h1 : get_biomarkers_for_calculation b cs .her2_mutations = 0)
    (h2 : get_biomarkers_for_calculation b cs .her2_circ = 0) :
    (calculate_all_parameters b cs).parameters.etaH = 0.1 := by
  have hf : f_HER2 (get_biomarkers_for_calculation b cs) = 0 := by
    unfold f_HER2
    rw [h1, h2]
    norm_num
  show etaH_formula (get_biomarkers_for_calculation b cs)
    (calculate_composite_scores (get_biomarkers_for_calculation b cs))
    (calculate_organ_functions (get_biomarkers_for_calculation b cs)) = 0.1
  unfold etaH_formula
  rw [hf, zero_mul, zero_mul]
  norm_num

/-- Witness for C8: a user map supplying 0 for every biomarker resolves
`her2_mutations` and `her2_circ` to 0, and `etaH` then equals 0.1. -/
theorem etaH_lower_bound_when_her2_zero_witness :
    get_biomarkers_for_calculation (fun _ => some 0) none
      BiomarkerKey.her2_mutations = 0 ∧
    get_biomarkers_for_calculation (fun _ => some 0) none
      BiomarkerKey.her2_circ = 0 ∧
    (calculate_all_parameters (fun _ => some 0) none).parameters.etaH = 0.1 :=
  ⟨rfl, rfl, etaH_lower_bound_when_her2_zero (fun _ => some 0) none rfl rfl⟩

/-- C9: the selector has no effect on the numeric result: for every user
map and non-empty selector, `calculate_all_parameters` returns exactly the
same parameters, scores, organs and constraint violations as with no
selector; only the `imputed_core_panel` flag and the static
`parameter_coverage` map are added. -/
theorem selector_has_no_numeric_effect (b : UserBiomarkers)
    (cs : List BiomarkerKey) (h : cs ≠ []) :
    (calculate_all_parameters b (some cs)).parameters =
      (calculate_all_parameters b none).parameters ∧
    (calculate_all_parameters b (some cs)).scores =
      (calculate_all_parameters b none).scores ∧
    (calculate_all_parameters b (some cs)).organs =
      (calculate_all_parameters b none).organs ∧
    (calculate_all_parameters b (some cs)).constraint_violations =
      (calculate_all_parameters b none).constraint_violations ∧
    (calculate_all_parameters b (some cs)).imputed_core_panel = true ∧
    (calculate_all_parameters b (some cs)).parameter_coverage =
      some CORE_PANEL_PARAMETER_COVERAGE ∧
    (calculate_all_parameters b none).imputed_core_panel = false ∧
    (calculate_all_parameters b none).parameter_coverage = none := by
  have hbu : get_biomarkers_for_calculation b (some cs) =
      get_biomarkers_for_calculation b none := by
    simp only [get_biomarkers_for_calculation]
    split_ifs <;> rfl
  have himp : (decide (0 < cs.length)) = true := by
    cases cs with
    | nil => exact absurd rfl h
    | cons a l => simp
  simp only [calculate_all_parameters, hbu, himp]
  norm_num

/-- Witness for C9: with the empty user map and the one-key selector
`[ca153]`, the parameter sets with and without the selector coincide. -/
theorem selector_has_no_numeric_effect_witness :
    ([BiomarkerKey.ca153] ≠ ([] : List BiomarkerKey)) ∧
    (calculate_all_parameters (fun _ => none) (some [BiomarkerKey.ca153])).parameters =
      (calculate_all_parameters (fun _ => none) none).parameters :=
  ⟨by simp,
   (selector_has_no_numeric_effect (fun _ => none) [BiomarkerKey.ca153] (by simp)).1⟩
